import Mathlib

/-!
Verification of the Nano-Banana-MCP server (`src/index.ts`) against its
natural-language specification.

The whole program is one TypeScript class, `NanoBananaMCP`, whose handlers we
embed shallowly as pure Lean functions:

* mutable server fields (`config`, `genAI`, `lastImagePath`, `configSource`)
  become a `ServerState` record threaded explicitly;
* the filesystem becomes a finite map `FS : String → Option Bytes`, with all
  writes additionally recorded in an explicit trace so that the absence of
  writes is provable;
* the remote Gemini call (`this.genAI.models.generateContent`) becomes an
  oracle parameter `GenOracle : GenRequest → Except String GenResponse`, with
  every issued request recorded in a trace;
* `new Date().toISOString()`, `Math.random().toString(36).substring(2, 8)`,
  `process.cwd()` and `stats.mtime.toLocaleString()` become fields of an
  environment record `Env`, indexed by draw count where the code draws fresh
  values;
* Node's base64 transcoding (`Buffer.from(data, 'base64')` /
  `buffer.toString('base64')`) is a library bijection irrelevant to every
  claim, so byte strings are represented by their base64 transport form and
  the two conversions are the identity on that representation;
* JavaScript truthiness on optional strings (`if (part.text)`,
  `relative_save_path ? … : …`, `a || b`) is modelled by `strTruthy` / `jsOr`:
  both `undefined` and `""` are falsy.

Node `path` functions are modelled for '/'-separated paths without trailing
slashes or `.`/`..` segments, which covers every path the handlers build.
-/

namespace NanoBanana

/-- Byte strings, represented by their base64 transport form (see header). -/
abbrev Bytes := String

/-- The filesystem as a map from path to file contents. -/
def FS : Type := String → Option Bytes

/-- Models `fs.writeFile(p, d)` on the map. -/
def fsWrite (fs : FS) (p : String) (d : Bytes) : FS :=
  fun q => if q = p then some d else fs q

/-- Folds a list of writes over a filesystem. -/
def writeAll (fs : FS) : List (String × Bytes) → FS
  | [] => fs
  | w :: ws => writeAll (fsWrite fs w.1 w.2) ws

/-- Models `Buffer.from(data, 'base64')` (identity on the representation). -/
def base64ToBuffer (s : String) : Bytes := s

/-- Models `buffer.toString('base64')` (identity on the representation). -/
def bufferToBase64 (b : Bytes) : String := b

/-- Ambient process data: `process.cwd()`, the per-draw
`new Date().toISOString()` and `Math.random().toString(36).substring(2, 8)`
values consumed inside the image loops, and
`stats.mtime.toLocaleString()` per path. -/
structure Env where
  cwd : String
  isoTs : Nat → String
  rand : Nat → String
  mtime : String → String

/-- JavaScript truthiness of an optional string: `undefined` and `""` are
falsy. -/
def strTruthy : Option String → Bool
  | none => false
  | some s => !s.isEmpty

/-- JavaScript `a || b` on an optional string `a` and default `b`. -/
def jsOr (a : Option String) (b : String) : String :=
  match a with
  | none => b
  | some s => if s.isEmpty then b else s

/-- JavaScript template interpolation of a possibly-`undefined` string. -/
def jsTemplate (a : Option String) : String :=
  match a with
  | none => "undefined"
  | some s => s

/-- Models `.replace(/[:.]/g, '-')`. -/
def cleanTs (s : String) : String :=
  String.mk (s.data.map (fun c => if c = ':' || c = '.' then '-' else c))

/-- Splitting a character list on a separator character, the semantics of
`String.splitOn` with a one-character separator (structural, so it evaluates
in the kernel). -/
def splitChar (sep : Char) : List Char → List (List Char)
  | [] => [[]]
  | c :: cs =>
    let r := splitChar sep cs
    if c = sep then [] :: r
    else
      match r with
      | [] => [[c]]
      | h :: t => (c :: h) :: t

/-- The '/'-separated components of a path. -/
def pathComponents (p : String) : List String :=
  (splitChar '/' p.data).map String.mk

/-- Models Node `path.basename` for '/'-separated paths without trailing
slashes. -/
def pathBasename (p : String) : String :=
  (pathComponents p).getLastD ""

/-- Models Node `path.dirname` for '/'-separated relative paths without
trailing slashes. -/
def pathDirname (p : String) : String :=
  let cs := pathComponents p
  if cs.length ≤ 1 then "." else String.intercalate "/" (cs.dropLast)

/-- Models Node `path.join` for the arguments the handlers produce
(no `..`, no trailing slashes; `join(a, ".") = a`). -/
def pathJoin (a b : String) : String :=
  if b = "." then a else if a = "" then b else a ++ "/" ++ b

/-- Lower-casing, the semantics of `String.toLower` (structural). -/
def strToLower (s : String) : String :=
  String.mk (s.data.map Char.toLower)

/-- Models Node `path.extname` for the same restricted path shapes. -/
def pathExtname (p : String) : String :=
  let b := pathBasename p
  match (splitChar '.' b.data).map String.mk with
  | [] => ""
  | [_] => ""
  | first :: rest =>
    if first = "" && rest.length == 1 then "" else "." ++ rest.getLastD ""

/-- `NanoBananaMCP.getMimeType` (src/index.ts:659-672). -/
def getMimeType (filePath : String) : String :=
  let ext := strToLower (pathExtname filePath)
  if ext = ".jpg" || ext = ".jpeg" then "image/jpeg"
  else if ext = ".png" then "image/png"
  else if ext = ".webp" then "image/webp"
  else "image/jpeg"

/-- The `Config` type produced by `ConfigSchema` (src/index.ts:23-30). -/
structure Config where
  geminiApiKey : String
  workplacePath : Option String
deriving DecidableEq, Repr

/-- The `configSource` field's enumeration (src/index.ts:37-40); the code's
`config_file` value is the marker set by the explicit `configure_gemini_token`
call (the spec's `explicit_call`). -/
inductive ConfigSource where
  | environment
  | config_file
  | not_configured
deriving DecidableEq, Repr

/-- The mutable fields of the `NanoBananaMCP` class (src/index.ts:33-40).
`genAI` holds the api key the `GoogleGenAI` client was constructed with. -/
structure ServerState where
  config : Option Config
  genAI : Option String
  lastImagePath : Option String
  configSource : ConfigSource
deriving DecidableEq, Repr

/-- The state after the constructor, before/without `loadConfig` success. -/
def initialState : ServerState :=
  { config := none, genAI := none, lastImagePath := none,
    configSource := ConfigSource.not_configured }

/-- `NanoBananaMCP.ensureConfigured` (src/index.ts:655-657). -/
def ensureConfigured (st : ServerState) : Bool :=
  st.config.isSome && st.genAI.isSome

/-- One `inlineData` object of a response or request part; both fields are
optional in the SDK types. -/
structure InlineData where
  data : Option String
  mimeType : Option String
deriving DecidableEq, Repr

/-- One response/request part: optional text and optional inline image. -/
structure Part where
  text : Option String
  inlineData : Option InlineData
deriving DecidableEq, Repr

/-- `candidate.content` of the SDK response. -/
structure CandContent where
  parts : Option (List Part)
deriving DecidableEq, Repr

/-- One response candidate. -/
structure Candidate where
  content : Option CandContent
deriving DecidableEq, Repr

/-- The SDK response to `generateContent`. -/
structure GenResponse where
  candidates : Option (List Candidate)
deriving DecidableEq, Repr

/-- The guard `response.candidates && response.candidates[0]?.content?.parts`
(src/index.ts:288-291 and 460-463): the parts iterated by the loop, or `[]`
when the optional chain is falsy. -/
def responseParts (r : GenResponse) : List Part :=
  match r.candidates with
  | none => []
  | some cs =>
    match cs.head? with
    | none => []
    | some c =>
      match c.content with
      | none => []
      | some cc => cc.parts.getD []

/-- An outbound `generateContent` request: `create` sends the (possibly
`undefined`) prompt as `contents`, `edit` sends `[{ parts }]`. -/
inductive GenRequest where
  | create (model : String) (contents : Option String)
  | edit (model : String) (parts : List Part)
deriving DecidableEq, Repr

/-- The remote service, a black box returning parts or failing. -/
def GenOracle : Type := GenRequest → Except String GenResponse

/-- The model name used by both image tools. -/
def modelName : String := "gemini-2.5-flash-image-preview"

/-- One entry of a `CallToolResult.content` list. -/
inductive ContentItem where
  | text (s : String)
  | image (data : String) (mimeType : String)
deriving DecidableEq, Repr

/-- The MCP tool result shape. -/
structure CallToolResult where
  content : List ContentItem
deriving DecidableEq, Repr

/-- The MCP error codes the program uses. -/
inductive ErrorCode where
  | invalidParams
  | invalidRequest
  | internalError
  | methodNotFound
deriving DecidableEq, Repr

/-- A handler either returns a result or throws an `McpError`. -/
inductive HandlerResult where
  | ok (r : CallToolResult)
  | err (code : ErrorCode) (msg : String)
deriving DecidableEq, Repr

/-- A handler run: its result, the state and filesystem afterwards, and
traces of the file writes, directory creations and network requests it
performed, in order. -/
structure Outcome where
  result : HandlerResult
  state : ServerState
  fs : FS
  writes : List (String × Bytes)
  mkdirs : List String
  requests : List GenRequest

/-- Models `ConfigSchema.parse` (src/index.ts:23-28) on the object built at
src/index.ts:217-220: a missing key is Zod's `Required` invalid-type error,
an empty key fails the `min(1)` check with its configured message. Returns
the first error's message on failure. -/
def configSchemaParse (key : Option String) (wp : Option String) :
    Except String Config :=
  match key with
  | none => Except.error "Required"
  | some k =>
    if k.length < 1 then Except.error "Gemini API key is required"
    else Except.ok { geminiApiKey := k, workplacePath := wp }

/-- The arguments cast of `configureGeminiToken` (src/index.ts:212-214); the
cast performs no runtime check, so the field may be absent. -/
structure ConfigureArgs where
  apiKey : Option String
deriving DecidableEq, Repr

/-- The success text of `configureGeminiToken` (src/index.ts:233). -/
def configureSuccessText : String :=
  "‚úÖ Gemini API token configured successfully! You can now use nano-banana image generation features."

/-- `NanoBananaMCP.configureGeminiToken` (src/index.ts:209-246): Zod-validate
the key together with the currently configured workplace path; on success
replace `config`, rebuild `genAI` and set `configSource`; on a Zod failure
throw `InvalidParams` without touching any state. -/
def configureGeminiToken (st : ServerState) (fs : FS)
    (args : ConfigureArgs) : Outcome :=
  match configSchemaParse args.apiKey (st.config.bind Config.workplacePath) with
  | Except.error m =>
    { result := HandlerResult.err ErrorCode.invalidParams
        ("Invalid API key: " ++ m),
      state := st, fs := fs, writes := [], mkdirs := [], requests := [] }
  | Except.ok _ =>
    { result := HandlerResult.ok { content := [ContentItem.text configureSuccessText] },
      state :=
        { st with
          config := some
            { geminiApiKey := args.apiKey.getD "",
              workplacePath := st.config.bind Config.workplacePath },
          genAI := args.apiKey,
          configSource := ConfigSource.config_file },
      fs := fs, writes := [], mkdirs := [], requests := [] }

/-- The `NotConfigured` precondition message (src/index.ts:255 and 381). -/
def notConfiguredMsg : String :=
  "Gemini API token not configured. Use configure_gemini_token first."

/-- The accumulator of the per-part response loops (src/index.ts:272-332 and
445-507): the `content` / `savedFiles` / `textContent` locals, the filesystem,
the `lastImagePath` field, the trace of writes, and the number of
timestamp/random draws consumed so far. -/
structure Asm where
  content : List ContentItem
  savedFiles : List String
  textContent : String
  fs : FS
  lastImagePath : Option String
  writes : List (String × Bytes)
  drawIdx : Nat

/-- A generated default filename (src/index.ts:305-311 and 476-482):
prefix + cleaned ISO timestamp + "-" + random token + ".png", using the
`k`-th draw. -/
def genFileName (pre : String) (env : Env) (k : Nat) : String :=
  pre ++ cleanTs (env.isoTs k) ++ "-" ++ env.rand k ++ ".png"

/-- `if (part.text) { textContent += part.text }` (src/index.ts:295-297,
466-468). -/
def textStep (acc : Asm) (part : Part) : Asm :=
  if strTruthy part.text then
    { acc with textContent := acc.textContent ++ part.text.getD "" }
  else acc

/-- One iteration of the `generateImage` part loop (src/index.ts:292-331):
the whole image block is guarded by `part.inlineData?.data` being truthy;
a fresh timestamp/random draw happens only when no save path was given. -/
def genAsmStep (imagesDir : String) (rsp : Option String) (env : Env)
    (acc : Asm) (part : Part) : Asm :=
  let acc1 := textStep acc part
  match part.inlineData with
  | none => acc1
  | some idata =>
    match idata.data with
    | none => acc1
    | some d =>
      if d.isEmpty then acc1
      else
        let fileName :=
          if strTruthy rsp then pathBasename (rsp.getD "")
          else genFileName "generated-" env acc1.drawIdx
        let filePath := pathJoin imagesDir fileName
        let buf := base64ToBuffer d
        { acc1 with
          fs := fsWrite acc1.fs filePath buf,
          writes := acc1.writes ++ [(filePath, buf)],
          savedFiles := acc1.savedFiles ++ [filePath],
          lastImagePath := some filePath,
          content := acc1.content ++
            [ContentItem.image d (jsOr idata.mimeType "image/png")],
          drawIdx := if strTruthy rsp then acc1.drawIdx else acc1.drawIdx + 1 }

/-- One iteration of the `editImage` part loop (src/index.ts:464-506): the
filename (and its timestamp/random draw) is computed whenever `inlineData`
is present, but the write and the content push require `inlineData.data`
to be truthy. -/
def editAsmStep (imagesDir : String) (rsp : Option String) (env : Env)
    (acc : Asm) (part : Part) : Asm :=
  let acc1 := textStep acc part
  match part.inlineData with
  | none => acc1
  | some idata =>
    let fileName :=
      if strTruthy rsp then pathBasename (rsp.getD "")
      else genFileName "edited-" env acc1.drawIdx
    let filePath := pathJoin imagesDir fileName
    let acc2 := { acc1 with
      drawIdx := if strTruthy rsp then acc1.drawIdx else acc1.drawIdx + 1 }
    match idata.data with
    | none => acc2
    | some d =>
      if d.isEmpty then acc2
      else
        let buf := base64ToBuffer d
        { acc2 with
          fs := fsWrite acc2.fs filePath buf,
          writes := acc2.writes ++ [(filePath, buf)],
          savedFiles := acc2.savedFiles ++ [filePath],
          lastImagePath := some filePath,
          content := acc2.content ++
            [ContentItem.image d (jsOr idata.mimeType "image/png")] }

/-- The `for (const part of …parts)` loop of `generateImage`. -/
def genLoop (imagesDir : String) (rsp : Option String) (env : Env)
    (acc : Asm) : List Part → Asm
  | [] => acc
  | p :: ps => genLoop imagesDir rsp env (genAsmStep imagesDir rsp env acc p) ps

/-- The `for (const part of …parts)` loop of `editImage`. -/
def editLoop (imagesDir : String) (rsp : Option String) (env : Env)
    (acc : Asm) : List Part → Asm
  | [] => acc
  | p :: ps => editLoop imagesDir rsp env (editAsmStep imagesDir rsp env acc p) ps

/-- One persisted image: its path, its base64 data, and its reported mime
type. Specification value used to characterise the loops. -/
structure Produced where
  path : String
  data : String
  mime : String
deriving DecidableEq, Repr

/-- The filesystem write a `Produced` entry performs. -/
def prodToWrite (r : Produced) : String × Bytes := (r.path, base64ToBuffer r.data)

/-- The result-content entry a `Produced` entry contributes. -/
def prodToImage (r : Produced) : ContentItem := ContentItem.image r.data r.mime

/-- Specification of what the `generateImage` loop persists, starting at
draw index `k`. -/
def genProduced (imagesDir : String) (rsp : Option String) (env : Env)
    (k : Nat) : List Part → List Produced
  | [] => []
  | p :: ps =>
    match p.inlineData with
    | none => genProduced imagesDir rsp env k ps
    | some idata =>
      match idata.data with
      | none => genProduced imagesDir rsp env k ps
      | some d =>
        if d.isEmpty then genProduced imagesDir rsp env k ps
        else
          let fileName :=
            if strTruthy rsp then pathBasename (rsp.getD "")
            else genFileName "generated-" env k
          { path := pathJoin imagesDir fileName, data := d,
            mime := jsOr idata.mimeType "image/png" } ::
            genProduced imagesDir rsp env (if strTruthy rsp then k else k + 1) ps

/-- Specification of what the `editImage` loop persists, starting at draw
index `k` (draws advance on every `inlineData` part). -/
def editProduced (imagesDir : String) (rsp : Option String) (env : Env)
    (k : Nat) : List Part → List Produced
  | [] => []
  | p :: ps =>
    match p.inlineData with
    | none => editProduced imagesDir rsp env k ps
    | some idata =>
      let k1 := if strTruthy rsp then k else k + 1
      match idata.data with
      | none => editProduced imagesDir rsp env k1 ps
      | some d =>
        if d.isEmpty then editProduced imagesDir rsp env k1 ps
        else
          let fileName :=
            if strTruthy rsp then pathBasename (rsp.getD "")
            else genFileName "edited-" env k
          { path := pathJoin imagesDir fileName, data := d,
            mime := jsOr idata.mimeType "image/png" } ::
            editProduced imagesDir rsp env k1 ps

/-- Specification of the accumulated text of a part list. -/
def textsConcat : List Part → String
  | [] => ""
  | p :: ps => (if strTruthy p.text then p.text.getD "" else "") ++ textsConcat ps

/-- Last-write-wins: the final `lastImagePath` after writing the listed
paths over a previous value. -/
def lastPathAfter (prev : Option String) : List String → Option String
  | [] => prev
  | a :: l => lastPathAfter (some a) l

/-- How many timestamp/random draws the `generateImage` loop consumes. -/
def genDraws (rsp : Option String) : List Part → Nat
  | [] => 0
  | p :: ps =>
    (match p.inlineData with
     | none => 0
     | some idata =>
       match idata.data with
       | none => 0
       | some d => if d.isEmpty || strTruthy rsp then 0 else 1) + genDraws rsp ps

/-- How many timestamp/random draws the `editImage` loop consumes. -/
def editDraws (rsp : Option String) : List Part → Nat
  | [] => 0
  | p :: ps =>
    (match p.inlineData with
     | none => 0
     | some _ => if strTruthy rsp then 0 else 1) + editDraws rsp ps

/-- The arguments cast of `generateImage` (src/index.ts:259-262); no runtime
validation, so fields may be absent. -/
structure GenerateArgs where
  prompt : Option String
  relative_save_path : Option String
deriving DecidableEq, Repr

/-- The arguments cast of `editImage` (src/index.ts:385-391). -/
structure EditArgs where
  imagePath : Option String
  prompt : Option String
  relative_save_path : Option String
  referenceImages : Option (List String)
deriving DecidableEq, Repr

/-- The save directory (src/index.ts:276-280, 449-453): the configured
workplace path (falsy → `process.cwd()`), joined with the save path's
directory part when a truthy save path was given. -/
def imagesDirFor (st : ServerState) (env : Env) (rsp : Option String) : String :=
  let workplaceDir := jsOr (st.config.bind Config.workplacePath) env.cwd
  if strTruthy rsp then pathJoin workplaceDir (pathDirname (rsp.getD ""))
  else workplaceDir

/-- The loop accumulator at entry. -/
def initAsm (st : ServerState) (fs : FS) : Asm :=
  { content := [], savedFiles := [], textContent := "", fs := fs,
    lastImagePath := st.lastImagePath, writes := [], drawIdx := 0 }

/-- The status text of `generateImage` (src/index.ts:335-353). -/
def generateStatusText (prompt : Option String) (textContent : String)
    (savedFiles : List String) : String :=
  let s0 := "üé® Image generated with nano-banana (Gemini 2.5 Flash Image)!\n\nPrompt: \"" ++
    jsTemplate prompt ++ "\""
  let s1 := if textContent.isEmpty then s0
    else s0 ++ "\n\nDescription: " ++ textContent
  if savedFiles.length > 0 then
    s1 ++ "\n\nüìÅ Image saved to:\n" ++
      String.intercalate "\n" (savedFiles.map (fun f => "- " ++ f)) ++
      "\n\nüí° View the image by:" ++
      "\n1. Opening the file at the path above" ++
      "\n2. Clicking on \"Called generate_image\" in Cursor to expand the MCP call details" ++
      "\n\nüîÑ To modify this image, use: continue_editing" ++
      "\nüìã To check current image info, use: get_last_image_info"
  else
    s1 ++ "\n\nNote: No image was generated. The model may have returned only text." ++
      "\n\nüí° Tip: Try running the command again - sometimes the first call needs to warm up the model."

/-- The status text of `editImage` (src/index.ts:510-534). -/
def editStatusText (imagePath : Option String) (prompt : Option String)
    (referenceImages : Option (List String)) (textContent : String)
    (savedFiles : List String) : String :=
  let s0 := "üé® Image edited with nano-banana!\n\nOriginal: " ++
    jsTemplate imagePath ++ "\nEdit prompt: \"" ++ jsTemplate prompt ++ "\""
  let s1 :=
    match referenceImages with
    | some rs =>
      if 0 < rs.length then
        s0 ++ "\n\nReference images used:\n" ++
          String.intercalate "\n" (rs.map (fun f => "- " ++ f))
      else s0
    | none => s0
  let s2 := if textContent.isEmpty then s1
    else s1 ++ "\n\nDescription: " ++ textContent
  if savedFiles.length > 0 then
    s2 ++ "\n\nüìÅ Edited image saved to:\n" ++
      String.intercalate "\n" (savedFiles.map (fun f => "- " ++ f)) ++
      "\n\nüí° View the edited image by:" ++
      "\n1. Opening the file at the path above" ++
      "\n2. Clicking on \"Called edit_image\" in Cursor to expand the MCP call details" ++
      "\n\nüîÑ To continue editing, use: continue_editing" ++
      "\nüìã To check current image info, use: get_last_image_info"
  else
    s2 ++ "\n\nNote: No edited image was generated." ++
      "\n\nüí° Tip: Try running the command again - sometimes the first call needs to warm up the model."

/-- `NanoBananaMCP.generateImage` (src/index.ts:249-373): precondition check,
then the remote call with the raw prompt, then directory resolution/creation
and the response loop; remote failure wraps into an internal error. -/
def generateImage (st : ServerState) (fs : FS) (env : Env)
    (args : GenerateArgs) (oracle : GenOracle) : Outcome :=
  if ensureConfigured st then
    let req := GenRequest.create modelName args.prompt
    match oracle req with
    | Except.error m =>
      { result := HandlerResult.err ErrorCode.internalError
          ("Failed to generate image: " ++ m),
        state := st, fs := fs, writes := [], mkdirs := [], requests := [req] }
    | Except.ok response =>
      let imagesDir := imagesDirFor st env args.relative_save_path
      let asm := genLoop imagesDir args.relative_save_path env (initAsm st fs)
        (responseParts response)
      let statusText := generateStatusText args.prompt asm.textContent asm.savedFiles
      { result := HandlerResult.ok
          { content := ContentItem.text statusText :: asm.content },
        state := { st with lastImagePath := asm.lastImagePath },
        fs := asm.fs, writes := asm.writes, mkdirs := [imagesDir],
        requests := [req] }
  else
    { result := HandlerResult.err ErrorCode.invalidRequest notConfiguredMsg,
      state := st, fs := fs, writes := [], mkdirs := [], requests := [] }

/-- Modelled Node error message for `fs.readFile(undefined)`. -/
def nodeUndefinedPathMsg : String :=
  "The \"path\" argument must be of type string or an instance of Buffer or URL. Received undefined"

/-- Models `fs.readFile` on a possibly-`undefined` path; the error messages
stand in for the TypeError / ENOENT messages Node raises. -/
def readFileOpt (fs : FS) (p : Option String) : Except String Bytes :=
  match p with
  | none => Except.error nodeUndefinedPathMsg
  | some pp =>
    match fs pp with
    | some b => Except.ok b
    | none => Except.error ("ENOENT: no such file or directory, open " ++ pp)

/-- The reference-image loop of `editImage` (src/index.ts:411-427): each
readable reference becomes an inline part, unreadable ones are skipped. -/
def refLoop (fs : FS) : List String → List Part
  | [] => []
  | r :: rs =>
    match fs r with
    | some b =>
      { text := none,
        inlineData := some { data := some (bufferToBase64 b),
                             mimeType := some (getMimeType r) } } :: refLoop fs rs
    | none => refLoop fs rs

/-- The outbound request `editImage` sends once the primary image read
returned `buf` (src/index.ts:394-442): the primary inline part, then the
readable reference parts (the `referenceImages && referenceImages.length > 0`
guard), then the prompt text. -/
def editRequestFor (fs : FS) (args : EditArgs) (buf : Bytes) : GenRequest :=
  GenRequest.edit modelName
    ({ text := none,
       inlineData := some { data := some (bufferToBase64 buf),
                            mimeType := some (getMimeType (args.imagePath.getD "")) } } ::
      ((match args.referenceImages with
        | some rs => if 0 < rs.length then refLoop fs rs else []
        | none => []) ++ [{ text := args.prompt, inlineData := none }]))

/-- `NanoBananaMCP.editImage` (src/index.ts:375-552): precondition check,
primary read (failure → internal error), reference reads (best effort),
outbound parts `[primary, refs…, prompt]`, remote call, then the response
loop. -/
def editImage (st : ServerState) (fs : FS) (env : Env)
    (args : EditArgs) (oracle : GenOracle) : Outcome :=
  if ensureConfigured st then
    match readFileOpt fs args.imagePath with
    | Except.error m =>
      { result := HandlerResult.err ErrorCode.internalError
          ("Failed to edit image: " ++ m),
        state := st, fs := fs, writes := [], mkdirs := [], requests := [] }
    | Except.ok buf =>
      let req := editRequestFor fs args buf
      match oracle req with
      | Except.error m =>
        { result := HandlerResult.err ErrorCode.internalError
            ("Failed to edit image: " ++ m),
          state := st, fs := fs, writes := [], mkdirs := [], requests := [req] }
      | Except.ok response =>
        let imagesDir := imagesDirFor st env args.relative_save_path
        let asm := editLoop imagesDir args.relative_save_path env (initAsm st fs)
          (responseParts response)
        let statusText := editStatusText args.imagePath args.prompt
          args.referenceImages asm.textContent asm.savedFiles
        { result := HandlerResult.ok
            { content := ContentItem.text statusText :: asm.content },
          state := { st with lastImagePath := asm.lastImagePath },
          fs := asm.fs, writes := asm.writes, mkdirs := [imagesDir],
          requests := [req] }
  else
    { result := HandlerResult.err ErrorCode.invalidRequest notConfiguredMsg,
      state := st, fs := fs, writes := [], mkdirs := [], requests := [] }

/-- The values `getConfigurationStatus` computes and reports
(src/index.ts:554-585): the `isConfigured` check, the tracked source, and
the effective workplace directory. -/
structure StatusReport where
  isConfigured : Bool
  source : ConfigSource
  workplaceDir : String
deriving DecidableEq, Repr

/-- The report underlying `getConfigurationStatus`. -/
def statusReport (st : ServerState) (env : Env) : StatusReport :=
  { isConfigured := st.config.isSome && st.genAI.isSome,
    source := st.configSource,
    workplaceDir := jsOr (st.config.bind Config.workplacePath) env.cwd }

/-- Source line for `configSource = environment` (src/index.ts:567-568). -/
def envSourceInfo : String :=
  "\nüìç Source: Environment variable (GEMINI_API_KEY)\nüí° This is the most secure configuration method."

/-- Source line for `configSource = config_file` (src/index.ts:571-572). -/
def fileSourceInfo : String :=
  "\nüìç Source: Local configuration file (.nano-banana-config.json)\nüí° Consider using environment variables for better security."

/-- The not-configured help text (src/index.ts:588-600). -/
def notConfiguredInfo : String :=
  "\n\nüìù Configuration options:\n1. ü•á Environment variables (Recommended)\n   - GEMINI_API_KEY: Your API key (required)\n   - WORKPLACE_PATH: Custom workplace directory (optional)\n2. ü•à Use configure_gemini_token tool\n\nüí° For the most secure setup, add this to your MCP configuration:\n\"env\": \x7b\n  \"GEMINI_API_KEY\": \"your-api-key-here\",\n  \"WORKPLACE_PATH\": \"/path/to/your/workplace\"\n\x7d"

/-- `NanoBananaMCP.getConfigurationStatus` (src/index.ts:554-611): a pure
read of configuration state rendered as text. -/
def getConfigurationStatus (st : ServerState) (env : Env) : CallToolResult :=
  let rep := statusReport st env
  if rep.isConfigured then
    let statusText := "‚úÖ Gemini API token is configured and ready to use"
    let sourceInfo :=
      match rep.source with
      | ConfigSource.environment => envSourceInfo
      | ConfigSource.config_file => fileSourceInfo
      | ConfigSource.not_configured => ""
    let sourceInfo := sourceInfo ++ "\n\nüìÅ Images will be saved to: " ++
      rep.workplaceDir ++
      (if strTruthy (st.config.bind Config.workplacePath) then
        " (custom workplace path)" else " (current working directory)") ++
      "\nüí° Configure workplace_path via environment variable WORKPLACE_PATH."
    { content := [ContentItem.text (statusText ++ sourceInfo)] }
  else
    { content := [ContentItem.text
        ("‚ùå Gemini API token is not configured" ++ notConfiguredInfo)] }

/-- Text when no image was produced yet (src/index.ts:620). -/
def noPreviousImageText : String :=
  "üì∑ No previous image found.\n\nPlease generate or edit an image first, then this command will show information about your last image."

/-- Text when the recorded image still exists (src/index.ts:635-639). -/
def lastImageFoundText (p : String) (sizeKB : Nat) (mtimeStr : String) : String :=
  "üì∑ Last Image Information:\n\nPath: " ++ p ++ "\nFile Size: " ++
    toString sizeKB ++ " KB\nLast Modified: " ++ mtimeStr ++
    "\n\nüí° Use continue_editing to make further changes to this image."

/-- Text when the recorded image no longer exists (src/index.ts:648). -/
def lastImageMissingText (p : String) : String :=
  "üì∑ Last Image Information:\n\nPath: " ++ p ++
    "\nStatus: ‚ùå File not found\n\nüí° The image file may have been moved or deleted. Please generate a new image."

/-- `Math.round(stats.size / 1024)` on a byte count. -/
def jsRoundKB (size : Nat) : Nat := (size + 512) / 1024

/-- `NanoBananaMCP.getLastImageInfo` (src/index.ts:614-653): reads
`lastImagePath`, re-checks the file on disk at query time, never mutates
state. -/
def getLastImageInfo (st : ServerState) (fs : FS) (env : Env) : CallToolResult :=
  match st.lastImagePath with
  | none => { content := [ContentItem.text noPreviousImageText] }
  | some p =>
    match fs p with
    | some d =>
      { content := [ContentItem.text
          (lastImageFoundText p (jsRoundKB d.length) (env.mtime p))] }
    | none => { content := [ContentItem.text (lastImageMissingText p)] }

/-- One dispatched tool call (src/index.ts:166-191): the five known tools
with their cast argument shapes, or an unknown name. -/
inductive ToolCall where
  | configure (args : ConfigureArgs)
  | generate (args : GenerateArgs)
  | edit (args : EditArgs)
  | status
  | lastInfo
  | unknown (name : String)

/-- Outcome of a handler that only reads state. -/
def readOnlyOutcome (st : ServerState) (fs : FS) (r : CallToolResult) : Outcome :=
  { result := HandlerResult.ok r, state := st, fs := fs,
    writes := [], mkdirs := [], requests := [] }

/-- The tool router's `switch` (src/index.ts:166-191); an unknown name
throws `MethodNotFound` before reaching any handler. -/
def handleToolCall (st : ServerState) (fs : FS) (env : Env)
    (oracle : GenOracle) : ToolCall → Outcome
  | ToolCall.configure a => configureGeminiToken st fs a
  | ToolCall.generate a => generateImage st fs env a oracle
  | ToolCall.edit a => editImage st fs env a oracle
  | ToolCall.status => readOnlyOutcome st fs (getConfigurationStatus st env)
  | ToolCall.lastInfo => readOnlyOutcome st fs (getLastImageInfo st fs env)
  | ToolCall.unknown n =>
    { result := HandlerResult.err ErrorCode.methodNotFound ("Unknown tool: " ++ n),
      state := st, fs := fs, writes := [], mkdirs := [], requests := [] }

/-- Whether a handler result is an error (a thrown `McpError`). -/
def isErr : HandlerResult → Bool
  | HandlerResult.ok _ => false
  | HandlerResult.err _ _ => true

/-- The outcome of a successful `generateImage` run on response `resp`,
stated via the `genProduced` specification (proved equal to the handler in
`generateImage_ok`). -/
def genSuccessOutcome (st : ServerState) (fs : FS) (env : Env)
    (gargs : GenerateArgs) (resp : GenResponse) : Outcome :=
  let dir := imagesDirFor st env gargs.relative_save_path
  let produced := genProduced dir gargs.relative_save_path env 0 (responseParts resp)
  { result := HandlerResult.ok ⟨ContentItem.text
      (generateStatusText gargs.prompt (textsConcat (responseParts resp))
        (produced.map Produced.path)) :: produced.map prodToImage⟩,
    state := { st with
      lastImagePath := lastPathAfter st.lastImagePath (produced.map Produced.path) },
    fs := writeAll fs (produced.map prodToWrite),
    writes := produced.map prodToWrite,
    mkdirs := [dir],
    requests := [GenRequest.create modelName gargs.prompt] }

/-- The outcome of a successful `editImage` run whose primary read returned
`buf` and whose remote call returned `resp` (proved equal to the handler in
`editImage_ok`). -/
def editSuccessOutcome (st : ServerState) (fs : FS) (env : Env)
    (eargs : EditArgs) (buf : Bytes) (resp : GenResponse) : Outcome :=
  let dir := imagesDirFor st env eargs.relative_save_path
  let produced := editProduced dir eargs.relative_save_path env 0 (responseParts resp)
  { result := HandlerResult.ok ⟨ContentItem.text
      (editStatusText eargs.imagePath eargs.prompt eargs.referenceImages
        (textsConcat (responseParts resp))
        (produced.map Produced.path)) :: produced.map prodToImage⟩,
    state := { st with
      lastImagePath := lastPathAfter st.lastImagePath (produced.map Produced.path) },
    fs := writeAll fs (produced.map prodToWrite),
    writes := produced.map prodToWrite,
    mkdirs := [dir],
    requests := [editRequestFor fs eargs buf] }

/-- The payload string of a content entry (the text, or the image data). -/
def imageDataOf : ContentItem → String
  | ContentItem.text s => s
  | ContentItem.image d _ => d

/-! ## Concrete fixtures used to instantiate the theorems -/

/-- An empty filesystem. -/
def fs0 : FS := fun _ => none

/-- A filesystem holding a primary image and one reference image. -/
def fsImgs : FS := fun p =>
  if p = "/img.png" then some "PRIMARYDATA"
  else if p = "/ref2.jpg" then some "REFDATA"
  else none

/-- A concrete ambient environment. -/
def env0 : Env :=
  { cwd := "/cwd",
    isoTs := fun _ => "2025-01-01T00:00:00.000Z",
    rand := fun _ => "abc123",
    mtime := fun _ => "1/1/2025, 12:00:00 AM" }

/-- An oracle whose remote call always fails. -/
def oracleDown : GenOracle := fun _ => Except.error "network down"

/-- A response wrapper with a single candidate carrying the given parts. -/
def respOfParts (ps : List Part) : GenResponse :=
  { candidates := some [{ content := some { parts := some ps } }] }

/-- An oracle returning one text part and one image part. -/
def oracleOneImage : GenOracle := fun _ =>
  Except.ok (respOfParts
    [{ text := some "desc", inlineData := none },
     { text := none, inlineData := some { data := some "IMGDATA", mimeType := some "image/png" } }])

/-- An oracle returning exactly one image part. -/
def oracleSingle : GenOracle := fun _ =>
  Except.ok (respOfParts
    [{ text := none, inlineData := some { data := some "IMGDATA", mimeType := some "image/png" } }])

/-- A configured server state with a workplace path. -/
def stConf : ServerState :=
  { config := some { geminiApiKey := "KEY", workplacePath := some "/wp" },
    genAI := some "KEY", lastImagePath := none,
    configSource := ConfigSource.config_file }

/-- A configured state that also remembers a last image. -/
def stLast : ServerState :=
  { stConf with lastImagePath := some "/old.png" }

/-! ## Loop characterisations -/

/-- The `generateImage` response loop, fully characterised: every field of
the accumulator after the loop, in terms of the `genProduced` specification. -/
theorem genLoop_spec (imagesDir : String) (rsp : Option String) (env : Env)
    (ps : List Part) (acc : Asm) :
    genLoop imagesDir rsp env acc ps =
      { content := acc.content ++
          (genProduced imagesDir rsp env acc.drawIdx ps).map prodToImage,
        savedFiles := acc.savedFiles ++
          (genProduced imagesDir rsp env acc.drawIdx ps).map Produced.path,
        textContent := acc.textContent ++ textsConcat ps,
        fs := writeAll acc.fs
          ((genProduced imagesDir rsp env acc.drawIdx ps).map prodToWrite),
        lastImagePath := lastPathAfter acc.lastImagePath
          ((genProduced imagesDir rsp env acc.drawIdx ps).map Produced.path),
        writes := acc.writes ++
          (genProduced imagesDir rsp env acc.drawIdx ps).map prodToWrite,
        drawIdx := acc.drawIdx + genDraws rsp ps } := by
  induction ps generalizing acc with
  | nil =>
    simp [genLoop, genProduced, textsConcat, genDraws, writeAll, lastPathAfter]
  | cons p ps ih =>
    obtain ⟨tx, idata⟩ := p
    rcases idata with _ | ⟨d, mime⟩
    · by_cases htx : strTruthy tx = true <;>
        simp [genLoop, genAsmStep, textStep, htx, ih, genProduced, textsConcat,
          genDraws, String.append_assoc]
    · rcases d with _ | d
      · by_cases htx : strTruthy tx = true <;>
          simp [genLoop, genAsmStep, textStep, htx, ih, genProduced, textsConcat,
            genDraws, String.append_assoc]
      · by_cases hd : d.isEmpty = true
        · by_cases htx : strTruthy tx = true <;>
            simp [genLoop, genAsmStep, textStep, htx, hd, ih, genProduced,
              textsConcat, genDraws, String.append_assoc]
        · by_cases hr : strTruthy rsp = true <;>
            by_cases htx : strTruthy tx = true <;>
              simp [genLoop, genAsmStep, textStep, htx, hd, hr, ih, genProduced,
                textsConcat, genDraws, writeAll, lastPathAfter, prodToImage,
                prodToWrite, String.append_assoc, List.append_assoc] <;>
              try omega

/-- The `editImage` response loop, fully characterised in terms of the
`editProduced` specification. -/
theorem editLoop_spec (imagesDir : String) (rsp : Option String) (env : Env)
    (ps : List Part) (acc : Asm) :
    editLoop imagesDir rsp env acc ps =
      { content := acc.content ++
          (editProduced imagesDir rsp env acc.drawIdx ps).map prodToImage,
        savedFiles := acc.savedFiles ++
          (editProduced imagesDir rsp env acc.drawIdx ps).map Produced.path,
        textContent := acc.textContent ++ textsConcat ps,
        fs := writeAll acc.fs
          ((editProduced imagesDir rsp env acc.drawIdx ps).map prodToWrite),
        lastImagePath := lastPathAfter acc.lastImagePath
          ((editProduced imagesDir rsp env acc.drawIdx ps).map Produced.path),
        writes := acc.writes ++
          (editProduced imagesDir rsp env acc.drawIdx ps).map prodToWrite,
        drawIdx := acc.drawIdx + editDraws rsp ps } := by
  induction ps generalizing acc with
  | nil =>
    simp [editLoop, editProduced, textsConcat, editDraws, writeAll, lastPathAfter]
  | cons p ps ih =>
    obtain ⟨tx, idata⟩ := p
    rcases idata with _ | ⟨d, mime⟩
    · by_cases htx : strTruthy tx = true <;>
        simp [editLoop, editAsmStep, textStep, htx, ih, editProduced, textsConcat,
          editDraws, String.append_assoc]
    · rcases d with _ | d
      · by_cases hr : strTruthy rsp = true <;>
          by_cases htx : strTruthy tx = true <;>
            simp [editLoop, editAsmStep, textStep, htx, hr, ih, editProduced,
              textsConcat, editDraws, String.append_assoc] <;>
            try omega
      · by_cases hd : d.isEmpty = true
        · by_cases hr : strTruthy rsp = true <;>
            by_cases htx : strTruthy tx = true <;>
              simp [editLoop, editAsmStep, textStep, htx, hd, hr, ih, editProduced,
                textsConcat, editDraws, String.append_assoc] <;>
              try omega
        · by_cases hr : strTruthy rsp = true <;>
            by_cases htx : strTruthy tx = true <;>
              simp [editLoop, editAsmStep, textStep, htx, hd, hr, ih, editProduced,
                textsConcat, editDraws, writeAll, lastPathAfter, prodToImage,
                prodToWrite, String.append_assoc, List.append_assoc] <;>
              try omega

/-- Whether a response part triggers the image-persist branch: its
`inlineData?.data` is truthy. -/
def imageDataTruthy (p : Part) : Bool :=
  strTruthy (p.inlineData.bind InlineData.data)

theorem lastPathAfter_some_mem (p : String) (l : List String) :
    ∃ q, lastPathAfter (some p) l = some q ∧ (q = p ∨ q ∈ l) := by
  induction l generalizing p with
  | nil => exact ⟨p, rfl, Or.inl rfl⟩
  | cons a l ih =>
    obtain ⟨q, hq, hm⟩ := ih a
    refine ⟨q, hq, Or.inr ?_⟩
    rcases hm with h | h
    · simp [h]
    · simp [h]

theorem genProduced_eq_nil (imagesDir : String) (rsp : Option String)
    (env : Env) (k : Nat) (ps : List Part)
    (h : ∀ p ∈ ps, imageDataTruthy p = false) :
    genProduced imagesDir rsp env k ps = [] := by
  induction ps generalizing k with
  | nil => rfl
  | cons p ps ih =>
    have hp := h p (List.mem_cons_self p ps)
    have hps := fun q hq => h q (List.mem_cons_of_mem p hq)
    obtain ⟨tx, idata⟩ := p
    rcases idata with _ | ⟨d, mime⟩
    · simpa [genProduced] using ih k hps
    · rcases d with _ | d
      · simpa [genProduced] using ih k hps
      · simp only [imageDataTruthy, strTruthy, Option.bind] at hp
        have hd : d.isEmpty = true := by simpa using hp
        simp [genProduced, hd, ih _ hps]

theorem editProduced_eq_nil (imagesDir : String) (rsp : Option String)
    (env : Env) (k : Nat) (ps : List Part)
    (h : ∀ p ∈ ps, imageDataTruthy p = false) :
    editProduced imagesDir rsp env k ps = [] := by
  induction ps generalizing k with
  | nil => rfl
  | cons p ps ih =>
    have hp := h p (List.mem_cons_self p ps)
    have hps := fun q hq => h q (List.mem_cons_of_mem p hq)
    obtain ⟨tx, idata⟩ := p
    rcases idata with _ | ⟨d, mime⟩
    · simpa [editProduced] using ih k hps
    · rcases d with _ | d
      · simpa [editProduced] using ih _ hps
      · simp only [imageDataTruthy, strTruthy, Option.bind] at hp
        have hd : d.isEmpty = true := by simpa using hp
        simp [editProduced, hd, ih _ hps]

theorem genProduced_path_saved (imagesDir : String) (rsp : Option String)
    (env : Env) (k : Nat) (ps : List Part) (hr : strTruthy rsp = true) :
    ∀ r ∈ genProduced imagesDir rsp env k ps,
      r.path = pathJoin imagesDir (pathBasename (rsp.getD "")) := by
  induction ps generalizing k with
  | nil => simp [genProduced]
  | cons p ps ih =>
    obtain ⟨tx, idata⟩ := p
    rcases idata with _ | ⟨d, mime⟩
    · simpa [genProduced] using ih k
    · rcases d with _ | d
      · simpa [genProduced] using ih k
      · by_cases hd : d.isEmpty = true
        · simpa [genProduced, hd] using ih k
        · intro r hr'
          simp [genProduced, hd, hr, List.mem_cons] at hr'
          rcases hr' with h | h
          · simp [h, hr]
          · exact ih k r h

theorem genProduced_path_fresh (imagesDir : String) (rsp : Option String)
    (env : Env) (k : Nat) (ps : List Part) (hr : strTruthy rsp = false) :
    ∀ r ∈ genProduced imagesDir rsp env k ps,
      ∃ j, r.path = pathJoin imagesDir (genFileName "generated-" env j) := by
  induction ps generalizing k with
  | nil => simp [genProduced]
  | cons p ps ih =>
    obtain ⟨tx, idata⟩ := p
    rcases idata with _ | ⟨d, mime⟩
    · simpa [genProduced] using ih k
    · rcases d with _ | d
      · simpa [genProduced] using ih k
      · by_cases hd : d.isEmpty = true
        · simpa [genProduced, hd] using ih k
        · intro r hr'
          simp [genProduced, hd, hr, List.mem_cons] at hr'
          rcases hr' with h | h
          · exact ⟨k, by simp [h, hr]⟩
          · exact ih (k + 1) r h

theorem editProduced_path_saved (imagesDir : String) (rsp : Option String)
    (env : Env) (k : Nat) (ps : List Part) (hr : strTruthy rsp = true) :
    ∀ r ∈ editProduced imagesDir rsp env k ps,
      r.path = pathJoin imagesDir (pathBasename (rsp.getD "")) := by
  induction ps generalizing k with
  | nil => simp [editProduced]
  | cons p ps ih =>
    obtain ⟨tx, idata⟩ := p
    rcases idata with _ | ⟨d, mime⟩
    · simpa [editProduced] using ih k
    · rcases d with _ | d
      · simpa [editProduced] using ih _
      · by_cases hd : d.isEmpty = true
        · simpa [editProduced, hd] using ih _
        · intro r hr'
          simp [editProduced, hd, hr, List.mem_cons] at hr'
          rcases hr' with h | h
          · simp [h, hr]
          · exact ih _ r h

theorem editProduced_path_fresh (imagesDir : String) (rsp : Option String)
    (env : Env) (k : Nat) (ps : List Part) (hr : strTruthy rsp = false) :
    ∀ r ∈ editProduced imagesDir rsp env k ps,
      ∃ j, r.path = pathJoin imagesDir (genFileName "edited-" env j) := by
  induction ps generalizing k with
  | nil => simp [editProduced]
  | cons p ps ih =>
    obtain ⟨tx, idata⟩ := p
    rcases idata with _ | ⟨d, mime⟩
    · simpa [editProduced] using ih k
    · rcases d with _ | d
      · simpa [editProduced] using ih _
      · by_cases hd : d.isEmpty = true
        · simpa [editProduced, hd] using ih _
        · intro r hr'
          simp [editProduced, hd, hr, List.mem_cons] at hr'
          rcases hr' with h | h
          · exact ⟨k, by simp [h, hr]⟩
          · exact ih _ r h

/-! ## Handler characterisations -/

theorem refGuard_eq (fs : FS) (o : Option (List String)) :
    (match o with
     | some rs => if 0 < rs.length then refLoop fs rs else []
     | none => []) = refLoop fs (o.getD []) := by
  cases o with
  | none => rfl
  | some rs => cases rs <;> simp [refLoop]

theorem refLoop_eq_filterMap (fs : FS) (rs : List String) :
    refLoop fs rs = rs.filterMap (fun r => (fs r).map (fun b =>
      ({ text := none,
         inlineData := some { data := some (bufferToBase64 b),
                              mimeType := some (getMimeType r) } } : Part))) := by
  induction rs with
  | nil => rfl
  | cons r rs ih => cases h : fs r <;> simp [refLoop, h, ih]

/-- `generateImage` on the success path, in full. -/
theorem generateImage_ok (st : ServerState) (fs : FS) (env : Env)
    (gargs : GenerateArgs) (oracle : GenOracle) (resp : GenResponse)
    (hconf : ensureConfigured st = true)
    (h : oracle (GenRequest.create modelName gargs.prompt) = Except.ok resp) :
    generateImage st fs env gargs oracle = genSuccessOutcome st fs env gargs resp := by
  simp [generateImage, hconf, h, genLoop_spec, initAsm, genSuccessOutcome]

/-- `editImage` on the success path, in full. -/
theorem editImage_ok (st : ServerState) (fs : FS) (env : Env)
    (eargs : EditArgs) (oracle : GenOracle) (resp : GenResponse) (buf : Bytes)
    (hconf : ensureConfigured st = true)
    (hread : readFileOpt fs eargs.imagePath = Except.ok buf)
    (h : oracle (editRequestFor fs eargs buf) = Except.ok resp) :
    editImage st fs env eargs oracle = editSuccessOutcome st fs env eargs buf resp := by
  simp [editImage, hconf, hread, h, editLoop_spec, initAsm, editSuccessOutcome]

/-- The writes of `generateImage` are empty or exactly what `genProduced`
prescribes for some response. -/
theorem generateImage_writes_shape (st : ServerState) (fs : FS) (env : Env)
    (gargs : GenerateArgs) (oracle : GenOracle) :
    (generateImage st fs env gargs oracle).writes = [] ∨
    ∃ resp, (generateImage st fs env gargs oracle).writes =
      (genProduced (imagesDirFor st env gargs.relative_save_path)
        gargs.relative_save_path env 0 (responseParts resp)).map prodToWrite := by
  by_cases hconf : ensureConfigured st = true
  · cases h : oracle (GenRequest.create modelName gargs.prompt) with
    | error m => exact Or.inl (by simp [generateImage, hconf, h])
    | ok resp =>
      refine Or.inr ⟨resp, ?_⟩
      rw [generateImage_ok st fs env gargs oracle resp hconf h]
      simp [genSuccessOutcome]
  · exact Or.inl (by simp [generateImage, hconf])

/-- The writes of `editImage` are empty or exactly what `editProduced`
prescribes for some response. -/
theorem editImage_writes_shape (st : ServerState) (fs : FS) (env : Env)
    (eargs : EditArgs) (oracle : GenOracle) :
    (editImage st fs env eargs oracle).writes = [] ∨
    ∃ resp, (editImage st fs env eargs oracle).writes =
      (editProduced (imagesDirFor st env eargs.relative_save_path)
        eargs.relative_save_path env 0 (responseParts resp)).map prodToWrite := by
  by_cases hconf : ensureConfigured st = true
  · cases hread : readFileOpt fs eargs.imagePath with
    | error m => exact Or.inl (by simp [editImage, hconf, hread])
    | ok buf =>
      cases h : oracle (editRequestFor fs eargs buf) with
      | error m => exact Or.inl (by simp [editImage, hconf, hread, h])
      | ok resp =>
        refine Or.inr ⟨resp, ?_⟩
        rw [editImage_ok st fs env eargs oracle resp buf hconf hread h]
        simp [editSuccessOutcome]
  · exact Or.inl (by simp [editImage, hconf])

theorem fst_comp_prodToWrite : Prod.fst ∘ prodToWrite = Produced.path :=
  funext fun _ => rfl

/-- `generateImage` updates `lastImagePath` exactly to the last written path
(kept unchanged when nothing was written). -/
theorem generateImage_lastImagePath (st : ServerState) (fs : FS) (env : Env)
    (gargs : GenerateArgs) (oracle : GenOracle) :
    (generateImage st fs env gargs oracle).state.lastImagePath =
      lastPathAfter st.lastImagePath
        ((generateImage st fs env gargs oracle).writes.map Prod.fst) := by
  by_cases hconf : ensureConfigured st = true
  · cases h : oracle (GenRequest.create modelName gargs.prompt) with
    | error m => simp [generateImage, hconf, h, lastPathAfter]
    | ok resp =>
      rw [generateImage_ok st fs env gargs oracle resp hconf h]
      simp [genSuccessOutcome, List.map_map, fst_comp_prodToWrite]
  · simp [generateImage, hconf, lastPathAfter]

/-- `editImage` updates `lastImagePath` exactly to the last written path. -/
theorem editImage_lastImagePath (st : ServerState) (fs : FS) (env : Env)
    (eargs : EditArgs) (oracle : GenOracle) :
    (editImage st fs env eargs oracle).state.lastImagePath =
      lastPathAfter st.lastImagePath
        ((editImage st fs env eargs oracle).writes.map Prod.fst) := by
  by_cases hconf : ensureConfigured st = true
  · cases hread : readFileOpt fs eargs.imagePath with
    | error m => simp [editImage, hconf, hread, lastPathAfter]
    | ok buf =>
      cases h : oracle (editRequestFor fs eargs buf) with
      | error m => simp [editImage, hconf, hread, h, lastPathAfter]
      | ok resp =>
        rw [editImage_ok st fs env eargs oracle resp buf hconf hread h]
        simp [editSuccessOutcome, List.map_map, fst_comp_prodToWrite]
  · simp [editImage, hconf, lastPathAfter]

/-- When `generateImage` fails, nothing was mutated. -/
theorem generateImage_err_frame (st : ServerState) (fs : FS) (env : Env)
    (gargs : GenerateArgs) (oracle : GenOracle)
    (h : isErr (generateImage st fs env gargs oracle).result = true) :
    (generateImage st fs env gargs oracle).state = st ∧
    (generateImage st fs env gargs oracle).writes = [] := by
  by_cases hconf : ensureConfigured st = true
  · cases hr : oracle (GenRequest.create modelName gargs.prompt) with
    | error m => simp [generateImage, hconf, hr]
    | ok resp =>
      rw [generateImage_ok st fs env gargs oracle resp hconf hr] at h
      simp [genSuccessOutcome, isErr] at h
  · simp [generateImage, hconf]

/-- When `editImage` fails, nothing was mutated. -/
theorem editImage_err_frame (st : ServerState) (fs : FS) (env : Env)
    (eargs : EditArgs) (oracle : GenOracle)
    (h : isErr (editImage st fs env eargs oracle).result = true) :
    (editImage st fs env eargs oracle).state = st ∧
    (editImage st fs env eargs oracle).writes = [] := by
  by_cases hconf : ensureConfigured st = true
  · cases hread : readFileOpt fs eargs.imagePath with
    | error m => simp [editImage, hconf, hread]
    | ok buf =>
      cases hr : oracle (editRequestFor fs eargs buf) with
      | error m => simp [editImage, hconf, hread, hr]
      | ok resp =>
        rw [editImage_ok st fs env eargs oracle resp buf hconf hread hr] at h
        simp [editSuccessOutcome, isErr] at h
  · simp [editImage, hconf]

/-- `configureGeminiToken` never touches `lastImagePath`. -/
theorem configure_lastImagePath (st : ServerState) (fs : FS) (a : ConfigureArgs) :
    (configureGeminiToken st fs a).state.lastImagePath = st.lastImagePath := by
  cases h : configSchemaParse a.apiKey (st.config.bind Config.workplacePath) <;>
    simp [configureGeminiToken, h]

/-- `configureGeminiToken` on a non-empty key, in full. -/
theorem configureGeminiToken_ok (st : ServerState) (fs : FS) (k : String)
    (hk : k ≠ "") :
    configureGeminiToken st fs { apiKey := some k } =
      { result := HandlerResult.ok { content := [ContentItem.text configureSuccessText] },
        state := { st with
          config := some { geminiApiKey := k, workplacePath := st.config.bind Config.workplacePath },
          genAI := some k,
          configSource := ConfigSource.config_file },
        fs := fs, writes := [], mkdirs := [], requests := [] } := by
  have h0 : k.length ≠ 0 := by
    intro h
    exact hk (String.ext (by simpa [String.length] using List.length_eq_zero.mp h))
  have hlen : ¬(k.length < 1) := by omega
  simp [configureGeminiToken, configSchemaParse, hlen]

/-! ## The claims -/

/-- C1: For every `generate_image` or `edit_image` call made while no
Configuration is live, the call fails with the not-configured precondition
error (instructing the caller to configure first) and performs no network
call and no filesystem write (state and filesystem unchanged, empty write,
mkdir and request traces). -/
theorem claim_generate_edit_require_configuration (st : ServerState) (fs : FS)
    (env : Env) (oracle : GenOracle) (gargs : GenerateArgs) (eargs : EditArgs)
    (h : st.config = none) :
    generateImage st fs env gargs oracle =
      { result := HandlerResult.err ErrorCode.invalidRequest notConfiguredMsg,
        state := st, fs := fs, writes := [], mkdirs := [], requests := [] } ∧
    editImage st fs env eargs oracle =
      { result := HandlerResult.err ErrorCode.invalidRequest notConfiguredMsg,
        state := st, fs := fs, writes := [], mkdirs := [], requests := [] } := by
  have hc : ensureConfigured st = false := by simp [ensureConfigured, h]
  constructor <;> simp [generateImage, editImage, hc]

/-- Witness for C1 at the freshly constructed server state. -/
theorem claim_generate_edit_require_configuration_witness :
    generateImage initialState fs0 env0
        { prompt := some "a cat", relative_save_path := none } oracleDown =
      { result := HandlerResult.err ErrorCode.invalidRequest notConfiguredMsg,
        state := initialState, fs := fs0, writes := [], mkdirs := [], requests := [] } ∧
    editImage initialState fs0 env0
        { imagePath := some "/img.png", prompt := some "p",
          relative_save_path := none, referenceImages := none } oracleDown =
      { result := HandlerResult.err ErrorCode.invalidRequest notConfiguredMsg,
        state := initialState, fs := fs0, writes := [], mkdirs := [], requests := [] } :=
  claim_generate_edit_require_configuration initialState fs0 env0 oracleDown
    { prompt := some "a cat", relative_save_path := none }
    { imagePath := some "/img.png", prompt := some "p",
      relative_save_path := none, referenceImages := none } rfl

/-- C3: For every empty-string credential, `configure_gemini_token` fails
with an invalid-arguments error and the live Configuration (the whole state:
credential, workplace path, client, source) and the filesystem are exactly
as before. -/
theorem claim_empty_credential_state_unchanged (st : ServerState) (fs : FS) :
    configureGeminiToken st fs { apiKey := some "" } =
      { result := HandlerResult.err ErrorCode.invalidParams
          "Invalid API key: Gemini API key is required",
        state := st, fs := fs, writes := [], mkdirs := [], requests := [] } := by
  simp [configureGeminiToken, configSchemaParse]

/-- C4: For every non-empty credential, a successful `configure_gemini_token`
call replaces the live Configuration's credential while preserving any
previously set workplace path unchanged in the new Configuration. -/
theorem claim_configure_preserves_workplace (st : ServerState) (fs : FS)
    (k : String) (hk : k ≠ "") :
    configureGeminiToken st fs { apiKey := some k } =
      { result := HandlerResult.ok { content := [ContentItem.text configureSuccessText] },
        state := { st with
          config := some { geminiApiKey := k, workplacePath := st.config.bind Config.workplacePath },
          genAI := some k,
          configSource := ConfigSource.config_file },
        fs := fs, writes := [], mkdirs := [], requests := [] } :=
  configureGeminiToken_ok st fs k hk

/-- Witness for C4: reconfiguring a state whose workplace path is `/wp`
keeps `/wp` in the new Configuration. -/
theorem claim_configure_preserves_workplace_witness :
    configureGeminiToken stConf fs0 { apiKey := some "NEWKEY" } =
      { result := HandlerResult.ok { content := [ContentItem.text configureSuccessText] },
        state := { config := some { geminiApiKey := "NEWKEY", workplacePath := some "/wp" },
                   genAI := some "NEWKEY", lastImagePath := none,
                   configSource := ConfigSource.config_file },
        fs := fs0, writes := [], mkdirs := [], requests := [] } := by
  have h := claim_configure_preserves_workplace stConf fs0 "NEWKEY" (by decide)
  simpa [stConf] using h

/-- C9: For every valid non-empty credential passed to
`configure_gemini_token`, a subsequent `get_configuration_status` reports the
server as configured and reports the configuration source as the marker set
only by the explicit configure call (the code's `config_file` value, the
spec's `explicit_call`), not the environment. -/
theorem claim_configure_then_status_source (st : ServerState) (fs : FS)
    (env : Env) (k : String) (hk : k ≠ "") :
    (statusReport (configureGeminiToken st fs { apiKey := some k }).state env).isConfigured
        = true ∧
    (statusReport (configureGeminiToken st fs { apiKey := some k }).state env).source
        = ConfigSource.config_file ∧
    ConfigSource.config_file ≠ ConfigSource.environment := by
  rw [configureGeminiToken_ok st fs k hk]
  refine ⟨by simp [statusReport], by simp [statusReport], by simp⟩

/-- Witness for C9 at a concrete key. -/
theorem claim_configure_then_status_source_witness :
    (statusReport (configureGeminiToken initialState fs0 { apiKey := some "KEY" }).state env0).isConfigured
        = true ∧
    (statusReport (configureGeminiToken initialState fs0 { apiKey := some "KEY" }).state env0).source
        = ConfigSource.config_file ∧
    ConfigSource.config_file ≠ ConfigSource.environment :=
  claim_configure_then_status_source initialState fs0 env0 "KEY" (by decide)

theorem isEmpty_false_of_ne {s : String} (h : s ≠ "") : s.isEmpty = false := by
  rw [Bool.eq_false_iff]
  intro hs
  exact h ((String.isEmpty_iff s).mp hs)

/-- C2 counterexample: with a live Configuration, a `generate_image` call
whose required `prompt` argument is missing is not rejected with an
invalid-arguments error before the network call: the handler issues the
remote request (with `contents` undefined) and surfaces the remote failure
as an internal error. -/
theorem claim_missing_args_counterexample :
    (generateImage stConf fs0 env0
        { prompt := none, relative_save_path := none } oracleDown).result =
      HandlerResult.err ErrorCode.internalError "Failed to generate image: network down" ∧
    (generateImage stConf fs0 env0
        { prompt := none, relative_save_path := none } oracleDown).requests =
      [GenRequest.create modelName none] ∧
    ErrorCode.internalError ≠ ErrorCode.invalidParams := by
  refine ⟨rfl, rfl, by decide⟩

/-- C2 amended: only `configure_gemini_token` validates its required
argument — a missing `apiKey` fails with an invalid-params error before any
configuration change, network call, or filesystem write.  `generate_image`
and `edit_image` perform no argument validation: with a missing `prompt` the
generate handler still issues the remote request (carrying the undefined
prompt), and with a missing `imagePath` the edit handler fails with an
internal (not invalid-arguments) error from the primary file read, before
any network call or filesystem write. -/
theorem claim_missing_args_amended (st : ServerState) (fs : FS) (env : Env)
    (oracle : GenOracle) (rsp pr : Option String) (refs : Option (List String))
    (hconf : ensureConfigured st = true) :
    configureGeminiToken st fs { apiKey := none } =
      { result := HandlerResult.err ErrorCode.invalidParams "Invalid API key: Required",
        state := st, fs := fs, writes := [], mkdirs := [], requests := [] } ∧
    (generateImage st fs env { prompt := none, relative_save_path := rsp } oracle).requests =
      [GenRequest.create modelName none] ∧
    editImage st fs env
        { imagePath := none, prompt := pr, relative_save_path := rsp,
          referenceImages := refs } oracle =
      { result := HandlerResult.err ErrorCode.internalError
          ("Failed to edit image: " ++ nodeUndefinedPathMsg),
        state := st, fs := fs, writes := [], mkdirs := [], requests := [] } := by
  refine ⟨by simp [configureGeminiToken, configSchemaParse], ?_, ?_⟩
  · cases h : oracle (GenRequest.create modelName none) <;>
      simp [generateImage, hconf, h]
  · simp [editImage, hconf, readFileOpt]

/-- Witness for the amended C2 at a configured state. -/
theorem claim_missing_args_amended_witness :
    configureGeminiToken stConf fs0 { apiKey := none } =
      { result := HandlerResult.err ErrorCode.invalidParams "Invalid API key: Required",
        state := stConf, fs := fs0, writes := [], mkdirs := [], requests := [] } ∧
    (generateImage stConf fs0 env0
        { prompt := none, relative_save_path := none } oracleDown).requests =
      [GenRequest.create modelName none] ∧
    editImage stConf fs0 env0
        { imagePath := none, prompt := some "p", relative_save_path := none,
          referenceImages := none } oracleDown =
      { result := HandlerResult.err ErrorCode.internalError
          ("Failed to edit image: " ++ nodeUndefinedPathMsg),
        state := stConf, fs := fs0, writes := [], mkdirs := [], requests := [] } :=
  claim_missing_args_amended stConf fs0 env0 oracleDown none (some "p") none rfl

/-- C5: For every image part produced by a response: if the caller specified
a relative save path, the persisted filename is that path's base filename,
reused for every image part of the same call; if no save path was specified,
the filename is the fixed prefix (`generated-` for create, `edited-` for
edit) followed by the cleaned timestamp (colons/periods replaced by hyphens)
and the random token of some draw. -/
theorem claim_filename_policy (st : ServerState) (fs : FS) (env : Env)
    (oracle : GenOracle) (gargs : GenerateArgs) (eargs : EditArgs) :
    (strTruthy gargs.relative_save_path = true →
      ∀ w ∈ (generateImage st fs env gargs oracle).writes,
        w.1 = pathJoin (imagesDirFor st env gargs.relative_save_path)
          (pathBasename (gargs.relative_save_path.getD ""))) ∧
    (strTruthy gargs.relative_save_path = false →
      ∀ w ∈ (generateImage st fs env gargs oracle).writes,
        ∃ j, w.1 = pathJoin (imagesDirFor st env gargs.relative_save_path)
          (genFileName "generated-" env j)) ∧
    (strTruthy eargs.relative_save_path = true →
      ∀ w ∈ (editImage st fs env eargs oracle).writes,
        w.1 = pathJoin (imagesDirFor st env eargs.relative_save_path)
          (pathBasename (eargs.relative_save_path.getD ""))) ∧
    (strTruthy eargs.relative_save_path = false →
      ∀ w ∈ (editImage st fs env eargs oracle).writes,
        ∃ j, w.1 = pathJoin (imagesDirFor st env eargs.relative_save_path)
          (genFileName "edited-" env j)) := by
  refine ⟨?_, ?_, ?_, ?_⟩
  · intro hr w hw
    rcases generateImage_writes_shape st fs env gargs oracle with hsh | ⟨resp, hsh⟩
    · rw [hsh] at hw; cases hw
    · rw [hsh] at hw
      rcases List.mem_map.mp hw with ⟨r, hrm, hwr⟩
      have hp := genProduced_path_saved (imagesDirFor st env gargs.relative_save_path)
        gargs.relative_save_path env 0 (responseParts resp) hr r hrm
      rw [← hwr]
      simpa [prodToWrite] using hp
  · intro hr w hw
    rcases generateImage_writes_shape st fs env gargs oracle with hsh | ⟨resp, hsh⟩
    · rw [hsh] at hw; cases hw
    · rw [hsh] at hw
      rcases List.mem_map.mp hw with ⟨r, hrm, hwr⟩
      rcases genProduced_path_fresh (imagesDirFor st env gargs.relative_save_path)
        gargs.relative_save_path env 0 (responseParts resp) hr r hrm with ⟨j, hj⟩
      refine ⟨j, ?_⟩
      rw [← hwr]
      simpa [prodToWrite] using hj
  · intro hr w hw
    rcases editImage_writes_shape st fs env eargs oracle with hsh | ⟨resp, hsh⟩
    · rw [hsh] at hw; cases hw
    · rw [hsh] at hw
      rcases List.mem_map.mp hw with ⟨r, hrm, hwr⟩
      have hp := editProduced_path_saved (imagesDirFor st env eargs.relative_save_path)
        eargs.relative_save_path env 0 (responseParts resp) hr r hrm
      rw [← hwr]
      simpa [prodToWrite] using hp
  · intro hr w hw
    rcases editImage_writes_shape st fs env eargs oracle with hsh | ⟨resp, hsh⟩
    · rw [hsh] at hw; cases hw
    · rw [hsh] at hw
      rcases List.mem_map.mp hw with ⟨r, hrm, hwr⟩
      rcases editProduced_path_fresh (imagesDirFor st env eargs.relative_save_path)
        eargs.relative_save_path env 0 (responseParts resp) hr r hrm with ⟨j, hj⟩
      refine ⟨j, ?_⟩
      rw [← hwr]
      simpa [prodToWrite] using hj

/-- Witness for C5: with save path `out/pic.png` the single produced image
is persisted under that base filename inside the resolved directory. -/
theorem claim_filename_policy_witness :
    strTruthy (some "out/pic.png") = true ∧
    ("/wp/out/pic.png", "IMGDATA") ∈ (generateImage stConf fs0 env0
      { prompt := some "p", relative_save_path := some "out/pic.png" } oracleOneImage).writes ∧
    "/wp/out/pic.png" = pathJoin (imagesDirFor stConf env0 (some "out/pic.png"))
      (pathBasename ((some "out/pic.png").getD "")) :=
  ⟨by decide, by decide,
    (claim_filename_policy stConf fs0 env0 oracleOneImage
        { prompt := some "p", relative_save_path := some "out/pic.png" }
        { imagePath := none, prompt := none, relative_save_path := none,
          referenceImages := none }).1
      (by decide) ("/wp/out/pic.png", "IMGDATA") (by decide)⟩

/-- C6: For every `edit_image` call whose primary image is readable, the
outbound request part list is exactly: the primary image part (bytes plus
mime type) first, then one part per readable reference image in the order
supplied (unreadable references silently skipped), then the prompt text as
the last part. -/
theorem claim_edit_outbound_part_order (st : ServerState) (fs : FS) (env : Env)
    (eargs : EditArgs) (oracle : GenOracle) (ip : String) (buf : Bytes)
    (hconf : ensureConfigured st = true)
    (hip : eargs.imagePath = some ip)
    (hbuf : fs ip = some buf) :
    (editImage st fs env eargs oracle).requests =
      [GenRequest.edit modelName
        ({ text := none,
           inlineData := some { data := some (bufferToBase64 buf),
                                mimeType := some (getMimeType ip) } } ::
          ((eargs.referenceImages.getD []).filterMap (fun r => (fs r).map (fun b =>
            ({ text := none,
               inlineData := some { data := some (bufferToBase64 b),
                                    mimeType := some (getMimeType r) } } : Part))) ++
           [{ text := eargs.prompt, inlineData := none }]))] := by
  have hread : readFileOpt fs eargs.imagePath = Except.ok buf := by
    simp [readFileOpt, hip, hbuf]
  have hreq : editRequestFor fs eargs buf =
      GenRequest.edit modelName
        ({ text := none,
           inlineData := some { data := some (bufferToBase64 buf),
                                mimeType := some (getMimeType ip) } } ::
          ((eargs.referenceImages.getD []).filterMap (fun r => (fs r).map (fun b =>
            ({ text := none,
               inlineData := some { data := some (bufferToBase64 b),
                                    mimeType := some (getMimeType r) } } : Part))) ++
           [{ text := eargs.prompt, inlineData := none }])) := by
    cases hrefs : eargs.referenceImages with
    | none => simp [editRequestFor, hip, hrefs]
    | some rs =>
      cases rs with
      | nil => simp [editRequestFor, hip, hrefs]
      | cons a l => simp [editRequestFor, hip, hrefs, refLoop_eq_filterMap]
  have hr : (editImage st fs env eargs oracle).requests = [editRequestFor fs eargs buf] := by
    cases h : oracle (editRequestFor fs eargs buf) with
    | error m => simp [editImage, hconf, hread, h]
    | ok resp =>
      rw [editImage_ok st fs env eargs oracle resp buf hconf hread h]
      simp [editSuccessOutcome]
  rw [hr, hreq]

/-- Witness for C6: one unreadable reference (`/nope.png`) is skipped while
the readable one (`/ref2.jpg`) appears, between the primary image and the
prompt. -/
theorem claim_edit_outbound_part_order_witness :
    fsImgs "/img.png" = some "PRIMARYDATA" ∧
    fsImgs "/nope.png" = none ∧
    fsImgs "/ref2.jpg" = some "REFDATA" ∧
    (editImage stConf fsImgs env0
        { imagePath := some "/img.png", prompt := some "make it blue",
          relative_save_path := none,
          referenceImages := some ["/nope.png", "/ref2.jpg"] } oracleDown).requests =
      [GenRequest.edit modelName
        [{ text := none,
           inlineData := some { data := some "PRIMARYDATA", mimeType := some "image/png" } },
         { text := none,
           inlineData := some { data := some "REFDATA", mimeType := some "image/jpeg" } },
         { text := some "make it blue", inlineData := none }]] := by
  refine ⟨rfl, rfl, rfl, ?_⟩
  have h := claim_edit_outbound_part_order stConf fsImgs env0
    { imagePath := some "/img.png", prompt := some "make it blue",
      relative_save_path := none,
      referenceImages := some ["/nope.png", "/ref2.jpg"] } oracleDown
    "/img.png" "PRIMARYDATA" rfl rfl rfl
  rw [h]
  decide

theorem imageDataOf_comp : imageDataOf ∘ prodToImage = Produced.data :=
  funext fun _ => rfl

theorem snd_comp_prodToWrite : Prod.snd ∘ prodToWrite = Produced.data :=
  funext fun _ => rfl

/-- C7: For every successful `generate_image` or `edit_image` call, the
returned content list has the accumulated status/description text as its
first entry, followed by one inline image entry per persisted image in
production order (same length, same payloads in the same order, all image
entries); and when the remote response contains zero image parts the call
still returns a text-only success result rather than failing. -/
theorem claim_result_content_shape (st : ServerState) (fs : FS) (env : Env)
    (gargs : GenerateArgs) (eargs : EditArgs) (oracle : GenOracle)
    (hconf : ensureConfigured st = true) :
    (∀ resp, oracle (GenRequest.create modelName gargs.prompt) = Except.ok resp →
      ∃ t imgs, (generateImage st fs env gargs oracle).result =
          HandlerResult.ok ⟨ContentItem.text t :: imgs⟩ ∧
        imgs.length = (generateImage st fs env gargs oracle).writes.length ∧
        imgs.map imageDataOf = (generateImage st fs env gargs oracle).writes.map Prod.snd ∧
        (∀ c ∈ imgs, ∃ d m, c = ContentItem.image d m) ∧
        ((∀ p ∈ responseParts resp, imageDataTruthy p = false) → imgs = [])) ∧
    (∀ resp buf, readFileOpt fs eargs.imagePath = Except.ok buf →
      oracle (editRequestFor fs eargs buf) = Except.ok resp →
      ∃ t imgs, (editImage st fs env eargs oracle).result =
          HandlerResult.ok ⟨ContentItem.text t :: imgs⟩ ∧
        imgs.length = (editImage st fs env eargs oracle).writes.length ∧
        imgs.map imageDataOf = (editImage st fs env eargs oracle).writes.map Prod.snd ∧
        (∀ c ∈ imgs, ∃ d m, c = ContentItem.image d m) ∧
        ((∀ p ∈ responseParts resp, imageDataTruthy p = false) → imgs = [])) := by
  constructor
  · intro resp h
    rw [generateImage_ok st fs env gargs oracle resp hconf h]
    refine ⟨generateStatusText gargs.prompt (textsConcat (responseParts resp))
        ((genProduced (imagesDirFor st env gargs.relative_save_path)
          gargs.relative_save_path env 0 (responseParts resp)).map Produced.path),
      (genProduced (imagesDirFor st env gargs.relative_save_path)
        gargs.relative_save_path env 0 (responseParts resp)).map prodToImage,
      ?_, ?_, ?_, ?_, ?_⟩
    · simp [genSuccessOutcome]
    · simp [genSuccessOutcome]
    · simp [genSuccessOutcome, List.map_map, imageDataOf_comp, snd_comp_prodToWrite]
    · intro c hc
      rcases List.mem_map.mp hc with ⟨r, _, hrc⟩
      exact ⟨r.data, r.mime, hrc ▸ rfl⟩
    · intro hz
      rw [genProduced_eq_nil _ _ _ _ _ hz]
      rfl
  · intro resp buf hread h
    rw [editImage_ok st fs env eargs oracle resp buf hconf hread h]
    refine ⟨editStatusText eargs.imagePath eargs.prompt eargs.referenceImages
        (textsConcat (responseParts resp))
        ((editProduced (imagesDirFor st env eargs.relative_save_path)
          eargs.relative_save_path env 0 (responseParts resp)).map Produced.path),
      (editProduced (imagesDirFor st env eargs.relative_save_path)
        eargs.relative_save_path env 0 (responseParts resp)).map prodToImage,
      ?_, ?_, ?_, ?_, ?_⟩
    · simp [editSuccessOutcome]
    · simp [editSuccessOutcome]
    · simp [editSuccessOutcome, List.map_map, imageDataOf_comp, snd_comp_prodToWrite]
    · intro c hc
      rcases List.mem_map.mp hc with ⟨r, _, hrc⟩
      exact ⟨r.data, r.mime, hrc ▸ rfl⟩
    · intro hz
      rw [editProduced_eq_nil _ _ _ _ _ hz]
      rfl

/-- Witness for C7: a response with one text and one image part yields a
text-first content list with one image entry. -/
theorem claim_result_content_shape_witness :
    ensureConfigured stConf = true ∧
    (∃ t imgs, (generateImage stConf fs0 env0
        { prompt := some "p", relative_save_path := none } oracleOneImage).result =
          HandlerResult.ok ⟨ContentItem.text t :: imgs⟩ ∧
      imgs.length = (generateImage stConf fs0 env0
        { prompt := some "p", relative_save_path := none } oracleOneImage).writes.length ∧
      imgs.map imageDataOf = (generateImage stConf fs0 env0
        { prompt := some "p", relative_save_path := none } oracleOneImage).writes.map Prod.snd ∧
      (∀ c ∈ imgs, ∃ d m, c = ContentItem.image d m) ∧
      ((∀ p ∈ responseParts (respOfParts
          [{ text := some "desc", inlineData := none },
           { text := none, inlineData := some { data := some "IMGDATA", mimeType := some "image/png" } }]),
        imageDataTruthy p = false) → imgs = [])) :=
  ⟨rfl,
    (claim_result_content_shape stConf fs0 env0
        { prompt := some "p", relative_save_path := none }
        { imagePath := none, prompt := none, relative_save_path := none,
          referenceImages := none } oracleOneImage rfl).1
      (respOfParts
        [{ text := some "desc", inlineData := none },
         { text := none, inlineData := some { data := some "IMGDATA", mimeType := some "image/png" } }])
      rfl⟩

/-- C8: Every successful image write sets `lastImagePath` to the just-written
absolute path with last-write-wins semantics (stated for both handlers as:
the final `lastImagePath` is the fold of the written paths over the previous
value); and in the round-trip scenario — save path `out/pic.png`, exactly one
image part — the file exists at `{workplace}/out/pic.png` and
`get_last_image_info` subsequently reports that exact path. -/
theorem claim_lastImagePath_roundtrip (st : ServerState) (fs : FS) (env : Env)
    (gargs : GenerateArgs) (eargs : EditArgs) (oracle : GenOracle)
    (key w pr d m : String) (hw : w ≠ "") (hd : d ≠ "")
    (hst : st.config = some { geminiApiKey := key, workplacePath := some w })
    (hgen : st.genAI = some key)
    (horacle : oracle (GenRequest.create modelName (some pr)) =
      Except.ok (respOfParts
        [{ text := none, inlineData := some { data := some d, mimeType := some m } }])) :
    ((generateImage st fs env gargs oracle).state.lastImagePath =
      lastPathAfter st.lastImagePath
        ((generateImage st fs env gargs oracle).writes.map Prod.fst)) ∧
    ((editImage st fs env eargs oracle).state.lastImagePath =
      lastPathAfter st.lastImagePath
        ((editImage st fs env eargs oracle).writes.map Prod.fst)) ∧
    ((generateImage st fs env
        { prompt := some pr, relative_save_path := some "out/pic.png" } oracle).fs
        (pathJoin (pathJoin w "out") "pic.png") = some (base64ToBuffer d)) ∧
    ((generateImage st fs env
        { prompt := some pr, relative_save_path := some "out/pic.png" } oracle).state.lastImagePath =
      some (pathJoin (pathJoin w "out") "pic.png")) ∧
    (getLastImageInfo
        (generateImage st fs env
          { prompt := some pr, relative_save_path := some "out/pic.png" } oracle).state
        (generateImage st fs env
          { prompt := some pr, relative_save_path := some "out/pic.png" } oracle).fs
        env =
      { content := [ContentItem.text (lastImageFoundText
          (pathJoin (pathJoin w "out") "pic.png")
          (jsRoundKB (base64ToBuffer d).length)
          (env.mtime (pathJoin (pathJoin w "out") "pic.png")))] }) := by
  have hconf : ensureConfigured st = true := by simp [ensureConfigured, hst, hgen]
  have hwe : w.isEmpty = false := isEmpty_false_of_ne hw
  have hde : d.isEmpty = false := isEmpty_false_of_ne hd
  have hok := generateImage_ok st fs env
    { prompt := some pr, relative_save_path := some "out/pic.png" } oracle
    (respOfParts
      [{ text := none, inlineData := some { data := some d, mimeType := some m } }])
    hconf horacle
  have h1 : strTruthy (some "out/pic.png") = true := by decide
  have h2 : pathDirname "out/pic.png" = "out" := by decide
  have h3 : pathBasename "out/pic.png" = "pic.png" := by decide
  have hdir : imagesDirFor st env (some "out/pic.png") = pathJoin w "out" := by
    simp [imagesDirFor, hst, jsOr, hwe, h1, h2]
  have hprod : genProduced (imagesDirFor st env (some "out/pic.png"))
      (some "out/pic.png") env 0
      (responseParts (respOfParts
        [{ text := none, inlineData := some { data := some d, mimeType := some m } }])) =
      [{ path := pathJoin (pathJoin w "out") "pic.png", data := d,
         mime := jsOr (some m) "image/png" }] := by
    simp [respOfParts, responseParts, genProduced, hde, h1, h3, hdir]
  refine ⟨generateImage_lastImagePath st fs env gargs oracle,
    editImage_lastImagePath st fs env eargs oracle, ?_, ?_, ?_⟩
  · rw [hok]
    simp [genSuccessOutcome, hprod, writeAll, fsWrite, prodToWrite]
  · rw [hok]
    simp [genSuccessOutcome, hprod, lastPathAfter]
  · rw [hok]
    simp only [genSuccessOutcome, hprod]
    simp [getLastImageInfo, lastPathAfter, writeAll, fsWrite, prodToWrite,
      base64ToBuffer]

/-- Witness for C8 at concrete values: workplace `/wp`, one image part. -/
theorem claim_lastImagePath_roundtrip_witness :
    ((generateImage stConf fs0 env0
        { prompt := some "p", relative_save_path := none } oracleSingle).state.lastImagePath =
      lastPathAfter stConf.lastImagePath
        ((generateImage stConf fs0 env0
          { prompt := some "p", relative_save_path := none } oracleSingle).writes.map Prod.fst)) ∧
    ((editImage stConf fs0 env0
        { imagePath := none, prompt := none, relative_save_path := none,
          referenceImages := none } oracleSingle).state.lastImagePath =
      lastPathAfter stConf.lastImagePath
        ((editImage stConf fs0 env0
          { imagePath := none, prompt := none, relative_save_path := none,
            referenceImages := none } oracleSingle).writes.map Prod.fst)) ∧
    ((generateImage stConf fs0 env0
        { prompt := some "p", relative_save_path := some "out/pic.png" } oracleSingle).fs
        (pathJoin (pathJoin "/wp" "out") "pic.png") = some (base64ToBuffer "IMGDATA")) ∧
    ((generateImage stConf fs0 env0
        { prompt := some "p", relative_save_path := some "out/pic.png" } oracleSingle).state.lastImagePath =
      some (pathJoin (pathJoin "/wp" "out") "pic.png")) ∧
    (getLastImageInfo
        (generateImage stConf fs0 env0
          { prompt := some "p", relative_save_path := some "out/pic.png" } oracleSingle).state
        (generateImage stConf fs0 env0
          { prompt := some "p", relative_save_path := some "out/pic.png" } oracleSingle).fs
        env0 =
      { content := [ContentItem.text (lastImageFoundText
          (pathJoin (pathJoin "/wp" "out") "pic.png")
          (jsRoundKB (base64ToBuffer "IMGDATA").length)
          (env0.mtime (pathJoin (pathJoin "/wp" "out") "pic.png")))] }) :=
  claim_lastImagePath_roundtrip stConf fs0 env0
    { prompt := some "p", relative_save_path := none }
    { imagePath := none, prompt := none, relative_save_path := none,
      referenceImages := none }
    oracleSingle "KEY" "/wp" "p" "IMGDATA" "image/png"
    (by decide) (by decide) rfl rfl rfl

/-- C10: Once `lastImagePath` is set it is never reset to absent: every tool
call leaves it pointing somewhere (either unchanged or at a path written by
the call); failing calls leave it exactly unchanged; and
`configure_gemini_token`, `get_configuration_status`, `get_last_image_info`
(even when the recorded file no longer exists) and unknown tools leave it
exactly unchanged. -/
theorem claim_lastImagePath_never_reset (st : ServerState) (fs : FS) (env : Env)
    (oracle : GenOracle) (call : ToolCall) (p : String)
    (h : st.lastImagePath = some p) :
    (∃ q, (handleToolCall st fs env oracle call).state.lastImagePath = some q ∧
      (q = p ∨ q ∈ (handleToolCall st fs env oracle call).writes.map Prod.fst)) ∧
    (isErr (handleToolCall st fs env oracle call).result = true →
      (handleToolCall st fs env oracle call).state.lastImagePath = some p) ∧
    (∀ a, call = ToolCall.configure a →
      (handleToolCall st fs env oracle call).state.lastImagePath = some p) ∧
    (call = ToolCall.status →
      (handleToolCall st fs env oracle call).state.lastImagePath = some p) ∧
    (call = ToolCall.lastInfo →
      (handleToolCall st fs env oracle call).state.lastImagePath = some p) ∧
    (∀ n, call = ToolCall.unknown n →
      (handleToolCall st fs env oracle call).state.lastImagePath = some p) := by
  cases call with
  | configure a =>
    have hc : (handleToolCall st fs env oracle (ToolCall.configure a)).state.lastImagePath
        = some p := by
      simpa [handleToolCall, h] using configure_lastImagePath st fs a
    exact ⟨⟨p, hc, Or.inl rfl⟩, fun _ => hc, fun _ _ => hc, by simp [hc], by simp [hc],
      by simp [hc]⟩
  | generate a =>
    have hl : (handleToolCall st fs env oracle (ToolCall.generate a)).state.lastImagePath =
        lastPathAfter (some p)
          ((handleToolCall st fs env oracle (ToolCall.generate a)).writes.map Prod.fst) := by
      simpa [handleToolCall, h] using generateImage_lastImagePath st fs env a oracle
    refine ⟨?_, ?_, by simp, by simp, by simp, by simp⟩
    · rw [hl]
      exact lastPathAfter_some_mem p _
    · intro herr
      rcases generateImage_err_frame st fs env a oracle (by simpa [handleToolCall] using herr)
        with ⟨hs, _⟩
      simp [handleToolCall, hs, h]
  | edit a =>
    have hl : (handleToolCall st fs env oracle (ToolCall.edit a)).state.lastImagePath =
        lastPathAfter (some p)
          ((handleToolCall st fs env oracle (ToolCall.edit a)).writes.map Prod.fst) := by
      simpa [handleToolCall, h] using editImage_lastImagePath st fs env a oracle
    refine ⟨?_, ?_, by simp, by simp, by simp, by simp⟩
    · rw [hl]
      exact lastPathAfter_some_mem p _
    · intro herr
      rcases editImage_err_frame st fs env a oracle (by simpa [handleToolCall] using herr)
        with ⟨hs, _⟩
      simp [handleToolCall, hs, h]
  | status =>
    exact ⟨⟨p, by simp [handleToolCall, readOnlyOutcome, h], Or.inl rfl⟩,
      fun _ => by simp [handleToolCall, readOnlyOutcome, h],
      by simp [handleToolCall, readOnlyOutcome, h],
      fun _ => by simp [handleToolCall, readOnlyOutcome, h],
      by simp [handleToolCall, readOnlyOutcome, h],
      by simp [handleToolCall, readOnlyOutcome, h]⟩
  | lastInfo =>
    exact ⟨⟨p, by simp [handleToolCall, readOnlyOutcome, h], Or.inl rfl⟩,
      fun _ => by simp [handleToolCall, readOnlyOutcome, h],
      by simp [handleToolCall, readOnlyOutcome, h],
      by simp [handleToolCall, readOnlyOutcome, h],
      fun _ => by simp [handleToolCall, readOnlyOutcome, h],
      by simp [handleToolCall, readOnlyOutcome, h]⟩
  | unknown n =>
    exact ⟨⟨p, by simp [handleToolCall, h], Or.inl rfl⟩,
      fun _ => by simp [handleToolCall, h],
      by simp [handleToolCall, h],
      by simp [handleToolCall, h],
      by simp [handleToolCall, h],
      fun _ _ => by simp [handleToolCall, h]⟩

/-- Witness for C10: `get_last_image_info` on a state whose recorded file no
longer exists leaves the recorded path in place. -/
theorem claim_lastImagePath_never_reset_witness :
    (∃ q, (handleToolCall stLast fs0 env0 oracleDown ToolCall.lastInfo).state.lastImagePath
        = some q ∧
      (q = "/old.png" ∨
        q ∈ (handleToolCall stLast fs0 env0 oracleDown ToolCall.lastInfo).writes.map Prod.fst)) ∧
    (isErr (handleToolCall stLast fs0 env0 oracleDown ToolCall.lastInfo).result = true →
      (handleToolCall stLast fs0 env0 oracleDown ToolCall.lastInfo).state.lastImagePath
        = some "/old.png") ∧
    (∀ a, ToolCall.lastInfo = ToolCall.configure a →
      (handleToolCall stLast fs0 env0 oracleDown ToolCall.lastInfo).state.lastImagePath
        = some "/old.png") ∧
    (ToolCall.lastInfo = ToolCall.status →
      (handleToolCall stLast fs0 env0 oracleDown ToolCall.lastInfo).state.lastImagePath
        = some "/old.png") ∧
    (ToolCall.lastInfo = ToolCall.lastInfo →
      (handleToolCall stLast fs0 env0 oracleDown ToolCall.lastInfo).state.lastImagePath
        = some "/old.png") ∧
    (∀ n, ToolCall.lastInfo = ToolCall.unknown n →
      (handleToolCall stLast fs0 env0 oracleDown ToolCall.lastInfo).state.lastImagePath
        = some "/old.png") :=
  claim_lastImagePath_never_reset stLast fs0 env0 oracleDown ToolCall.lastInfo "/old.png" rfl

end NanoBanana
